import Mathlib

/-!
Shallow embedding of the units library (src/include/units/units.hpp and
src/include/units/Vector3D.hpp): a quantity is a double (modelled as a real
number) tagged with a dimension vector of eight exact rational exponents
(mass, length, time, current, angle, temperature, luminosity, moles), and
Vector3D is a triple of same-dimension quantities.  Compile-time std::ratio
exponent arithmetic is modelled with rational arithmetic; double arithmetic
is modelled with real arithmetic.
-/

noncomputable section

/-- Dimension vector: the eight std::ratio template parameters of the
Quantity class template (units.hpp lines 13-16), each an exact rational
exponent.  std::ratio stores a reduced fraction, so std::ratio equality is
rational-number equality. -/
structure Dims where
  mass : ℚ
  length : ℚ
  time : ℚ
  current : ℚ
  angle : ℚ
  temperature : ℚ
  luminosity : ℚ
  moles : ℚ
deriving DecidableEq

/-- Quantity (units.hpp line 25): a value stored in its base unit type,
tagged at the type level with its dimension vector. -/
structure Quantity (d : Dims) where
  value : ℝ

/-- Quantity::val (units.hpp line 64): the raw stored value. -/
def Quantity.val {d : Dims} (q : Quantity d) : ℝ := q.value

/-- QMultiplication (units.hpp lines 123-129): component-wise ratio_add of
the two dimension vectors. -/
def QMultiplication (d1 d2 : Dims) : Dims :=
  ⟨d1.mass + d2.mass, d1.length + d2.length, d1.time + d2.time, d1.current + d2.current,
   d1.angle + d2.angle, d1.temperature + d2.temperature, d1.luminosity + d2.luminosity,
   d1.moles + d2.moles⟩

/-- QDivision (units.hpp lines 131-139): component-wise ratio_subtract. -/
def QDivision (d1 d2 : Dims) : Dims :=
  ⟨d1.mass - d2.mass, d1.length - d2.length, d1.time - d2.time, d1.current - d2.current,
   d1.angle - d2.angle, d1.temperature - d2.temperature, d1.luminosity - d2.luminosity,
   d1.moles - d2.moles⟩

/-- QPower (units.hpp lines 141-145): each exponent ratio_multiplied by the
factor. -/
def QPower (d : Dims) (f : ℚ) : Dims :=
  ⟨d.mass * f, d.length * f, d.time * f, d.current * f,
   d.angle * f, d.temperature * f, d.luminosity * f, d.moles * f⟩

/-- QRoot (units.hpp lines 147-151): each exponent ratio_divided by the
quotient. -/
def QRoot (d : Dims) (f : ℚ) : Dims :=
  ⟨d.mass / f, d.length / f, d.time / f, d.current / f,
   d.angle / f, d.temperature / f, d.luminosity / f, d.moles / f⟩

/-- operator+ on two quantities of the identical dimension (units.hpp
line 153). -/
def Quantity.add {d : Dims} (lhs rhs : Quantity d) : Quantity d :=
  ⟨lhs.value + rhs.value⟩

/-- operator- on two quantities of the identical dimension (units.hpp
line 155). -/
def Quantity.sub {d : Dims} (lhs rhs : Quantity d) : Quantity d :=
  ⟨lhs.value - rhs.value⟩

/-- operator* by a bare double (units.hpp line 157). -/
def Quantity.mulDouble {d : Dims} (q : Quantity d) (multiple : ℝ) : Quantity d :=
  ⟨q.value * multiple⟩

/-- operator/ by a bare double (units.hpp line 161). -/
def Quantity.divDouble {d : Dims} (q : Quantity d) (divisor : ℝ) : Quantity d :=
  ⟨q.value / divisor⟩

/-- operator* on two quantities (units.hpp lines 163-166): the result is
typed with QMultiplication of the dimension vectors and its value is the
product of the values. -/
def Quantity.mul {d1 d2 : Dims} (lhs : Quantity d1) (rhs : Quantity d2) :
    Quantity (QMultiplication d1 d2) :=
  ⟨lhs.value * rhs.value⟩

/-- operator/ on two quantities (units.hpp lines 168-170): the result is
typed with QDivision of the dimension vectors and its value is the quotient
of the values. -/
def Quantity.div {d1 d2 : Dims} (lhs : Quantity d1) (rhs : Quantity d2) :
    Quantity (QDivision d1 d2) :=
  ⟨lhs.value / rhs.value⟩

/-- Quantity::operator-= (units.hpp line 81).  The body of the source is
the statement "value == other.value;": an equality comparison whose result
is discarded, so the stored value is left unchanged.  We model the compound
assignment as a function from the old state of the receiver to its new
state. -/
def Quantity.subAssign {d : Dims} (q other : Quantity d) : Quantity d :=
  ⟨q.value⟩

/-- unit_cast (units.hpp line 121): unchecked reinterpretation, rebuilding
the target quantity type from the raw stored value. -/
def unit_cast {d1 : Dims} (d2 : Dims) (q : Quantity d1) : Quantity d2 :=
  ⟨q.value⟩

/-- The all-zero dimension vector of the Number quantity (units.hpp
line 214). -/
def dimsNumber : Dims := ⟨0, 0, 0, 0, 0, 0, 0, 0⟩

/-- The dimension vector of Length (units.hpp line 227). -/
def lengthDims : Dims := ⟨0, 1, 0, 0, 0, 0, 0, 0⟩

/-- The dimension vector of Time (units.hpp line 221). -/
def timeDims : Dims := ⟨0, 0, 1, 0, 0, 0, 0, 0⟩

/-- The dimension vector of Angle (spec section 3: the fifth slot of the
dimension vector). -/
def angleDims : Dims := ⟨0, 0, 0, 0, 1, 0, 0, 0⟩

/-- Quantity::operator=(const double&) (units.hpp lines 102-110): guarded
by a static_assert that every one of the eight exponents equals
std::ratio<0>; when the guard holds the stored value becomes the assigned
double.  The compile-time acceptance test is modelled as an Option: none
models the rejected (ill-formed) instantiation. -/
def Quantity.assignDouble {d : Dims} (q : Quantity d) (rhs : ℝ) : Option (Quantity d) :=
  if d = dimsNumber then some ⟨rhs⟩ else none

/-- units::sgn (units.hpp line 333): -1 when the value is negative,
otherwise 1. -/
def units.sgn {d : Dims} (lhs : Quantity d) : ℤ :=
  if lhs.value < 0 then -1 else 1

/-- units::pow (units.hpp lines 301-303): value raised to the integer
template power R, dimension vector multiplied by R. -/
def units.pow (R : ℤ) {d : Dims} (lhs : Quantity d) : Quantity (QPower d (R : ℚ)) :=
  ⟨lhs.value ^ R⟩

/-- units::root (units.hpp lines 313-315): std::pow(value, 1.0 / R),
dimension vector divided by R.  Modelled with the real power function; for
a negative value the C library returns NaN where the real power function
returns its junk value, a region none of the theorems below rely on. -/
def units.root (R : ℤ) {d : Dims} (lhs : Quantity d) : Quantity (QRoot d (R : ℚ)) :=
  ⟨lhs.value ^ ((1 : ℝ) / (R : ℝ))⟩

/-- units::square (units.hpp lines 305-307).  The dimension vector is
QPower by 2, but the value computed by the source is std::sqrt of the
value, not its square. -/
def units.square {d : Dims} (rhs : Quantity d) : Quantity (QPower d 2) :=
  ⟨Real.sqrt rhs.value⟩

/-- units::sqrt (units.hpp lines 317-319): std::sqrt of the value,
dimension vector divided by 2. -/
def units.sqrt {d : Dims} (rhs : Quantity d) : Quantity (QRoot d 2) :=
  ⟨Real.sqrt rhs.value⟩

/-- units::abs (units.hpp line 295): absolute value, dimension
preserved. -/
def units.abs {d : Dims} (lhs : Quantity d) : Quantity d :=
  ⟨|lhs.value|⟩

/-- Modelled from the spec: acos is declared in units/Angle.hpp, which is
not under src/.  Spec section 4.2: per-axis angle = acos(component /
magnitude), mapping the dimensionless ratio to an Angle quantity.  The C
library acos returns NaN outside [-1, 1]; Mathlib's arccos returns its
junk values there (0 above 1, pi below -1). -/
def units.acos (r : ℝ) : Quantity angleDims :=
  ⟨Real.arccos r⟩

/-- Modelled from the spec: cos is declared in units/Angle.hpp, which is
not under src/.  Spec section 4.2 (fromPolar): the direction cosine of an
angle quantity, a bare double used to scale the magnitude. -/
def units.cos (a : Quantity angleDims) : ℝ :=
  Real.cos a.value

/-- The swapped dimension vector produced by toLinear and toAngular
(units.hpp lines 360-361 and 373-374): the length slot receives the angle
exponent and the angle slot receives the length exponent. -/
def swapAngleLength (d : Dims) : Dims :=
  ⟨d.mass, d.angle, d.time, d.current, d.length, d.temperature, d.luminosity, d.moles⟩

/-- toLinear (units.hpp lines 360-369): angular * (diameter / 2.0), then
unit_cast to the dimension vector with angle and length slots swapped. -/
def toLinear {d : Dims} (angular : Quantity d) (diameter : Quantity lengthDims) :
    Quantity (swapAngleLength d) :=
  unit_cast (swapAngleLength d) (Quantity.mul angular (Quantity.divDouble diameter 2))

/-- toAngular (units.hpp lines 373-382): linear / (diameter / 2.0), then
unit_cast to the dimension vector with angle and length slots swapped. -/
def toAngular {d : Dims} (lin : Quantity d) (diameter : Quantity lengthDims) :
    Quantity (swapAngleLength d) :=
  unit_cast (swapAngleLength d) (Quantity.div lin (Quantity.divDouble diameter 2))

/-- Vector3D (Vector3D.hpp line 13): three components of one quantity
type. -/
structure Vector3D (d : Dims) where
  x : Quantity d
  y : Quantity d
  z : Quantity d

/-- Vector3D::magnitude (Vector3D.hpp line 219):
sqrt(square(x) + square(y) + square(z)), using the units::square and
units::sqrt helpers of units.hpp. -/
def Vector3D.magnitude {d : Dims} (v : Vector3D d) : Quantity (QRoot (QPower d 2) 2) :=
  units.sqrt (Quantity.add (Quantity.add (units.square v.x) (units.square v.y))
    (units.square v.z))

/-- Vector3D::theta (Vector3D.hpp lines 209-212): per axis,
acos(component / magnitude), where the quotient is the quantity division
operator and acos is modelled from the spec (Angle.hpp is not under
src/). -/
def Vector3D.theta {d : Dims} (v : Vector3D d) : Vector3D angleDims :=
  ⟨units.acos (Quantity.div v.x v.magnitude).value,
   units.acos (Quantity.div v.y v.magnitude).value,
   units.acos (Quantity.div v.z v.magnitude).value⟩

/-- Vector3D::fromPolar (Vector3D.hpp lines 45-48): replaces the magnitude
with its absolute value, then builds each component as
magnitude * cos(angle component).  The member call m.abs() and cos are
declared in units/Angle.hpp, which is not under src/; both are modelled
from the spec (section 4.2: magnitude.abs() * cos(eachAngleComponent)),
with abs matching units::abs of units.hpp. -/
def Vector3D.fromPolar {d : Dims} (t : Vector3D angleDims) (m : Quantity d) : Vector3D d :=
  ⟨Quantity.mulDouble (units.abs m) (units.cos t.x),
   Quantity.mulDouble (units.abs m) (units.cos t.y),
   Quantity.mulDouble (units.abs m) (units.cos t.z)⟩

/-- Vector3D::vectorTo (Vector3D.hpp lines 232-234): the three component
differences (other.x - x, other.y - y, other.z - z) computed by the body.
The source passes these three components to the Vector2D constructor (a
two-component type from a header not under src/) although the declared
return type and the doc comment say Vector3D; we embed the computed
component triple itself. -/
def Vector3D.vectorToComponents {d : Dims} (a b : Vector3D d) :
    Quantity d × Quantity d × Quantity d :=
  (Quantity.sub b.x a.x, Quantity.sub b.y a.y, Quantity.sub b.z a.z)

end

/-- Helper: the value computed by Vector3D::magnitude at the components
(9, 0, 0): the buggy units::square turns each component into its square
root, so the magnitude is sqrt(sqrt 9 + sqrt 0 + sqrt 0) = sqrt 3. -/
theorem sqrt_sum_900 : Real.sqrt (Real.sqrt 9 + Real.sqrt 0 + Real.sqrt 0) = Real.sqrt 3 := by
  rw [Real.sqrt_zero, show (9 : ℝ) = 3 ^ 2 by norm_num,
    Real.sqrt_sq (by norm_num : (0 : ℝ) ≤ 3)]
  norm_num

/-- Helper: sqrt 3 is well below 9. -/
theorem sqrt_three_lt_nine : Real.sqrt 3 < 9 := by
  have h : Real.sqrt 3 < Real.sqrt 81 := Real.sqrt_lt_sqrt (by norm_num) (by norm_num)
  have h81 : Real.sqrt 81 = 9 := by
    rw [show (81 : ℝ) = 9 ^ 2 by norm_num, Real.sqrt_sq (by norm_num : (0 : ℝ) ≤ 9)]
  exact h81 ▸ h

/-- Helper: equality with the all-zero dimension vector is the conjunction
of the eight exponents vanishing. -/
theorem dims_eq_number_iff (d : Dims) :
    d = dimsNumber ↔
      (d.mass = 0 ∧ d.length = 0 ∧ d.time = 0 ∧ d.current = 0 ∧ d.angle = 0 ∧
       d.temperature = 0 ∧ d.luminosity = 0 ∧ d.moles = 0) := by
  cases d
  simp [dimsNumber]

/-- Claim C1: multiplying two quantities adds the dimension vectors
component-wise and multiplies the stored values; dividing subtracts the
dimension vectors and divides the values; and for a divisor of nonzero
value, multiplying the quotient back by the divisor recovers the dividend
value exactly in the real model. -/
theorem mul_div_dimensional_closure {d1 d2 : Dims} (a : Quantity d1) (b : Quantity d2)
    (hb : b.value ≠ 0) :
    (Quantity.mul a b).value = a.value * b.value ∧
    (Quantity.div a b).value = a.value / b.value ∧
    (Quantity.mul (Quantity.div a b) b).value = a.value ∧
    QMultiplication d1 d2 =
      ⟨d1.mass + d2.mass, d1.length + d2.length, d1.time + d2.time, d1.current + d2.current,
       d1.angle + d2.angle, d1.temperature + d2.temperature, d1.luminosity + d2.luminosity,
       d1.moles + d2.moles⟩ ∧
    QDivision d1 d2 =
      ⟨d1.mass - d2.mass, d1.length - d2.length, d1.time - d2.time, d1.current - d2.current,
       d1.angle - d2.angle, d1.temperature - d2.temperature, d1.luminosity - d2.luminosity,
       d1.moles - d2.moles⟩ := by
  refine ⟨rfl, rfl, ?_, rfl, rfl⟩
  show a.value / b.value * b.value = a.value
  exact div_mul_cancel₀ a.value hb

/-- Witness for C1 at a = 6 (length), b = 2 (time). -/
theorem mul_div_dimensional_closure_witness :
    ((⟨2⟩ : Quantity timeDims).value ≠ 0) ∧
    (Quantity.mul (Quantity.div (⟨6⟩ : Quantity lengthDims) (⟨2⟩ : Quantity timeDims))
      (⟨2⟩ : Quantity timeDims)).value = (6 : ℝ) := by
  have h2 : ((⟨2⟩ : Quantity timeDims)).value ≠ 0 := by
    show (2 : ℝ) ≠ 0
    norm_num
  exact ⟨h2, (mul_div_dimensional_closure ⟨6⟩ ⟨2⟩ h2).2.2.1⟩

/-- Claim C2 is about a code bug: the body of Quantity::operator-= is the
discarded comparison "value == other.value;", so the receiver keeps its old
value.  At q.val() = 5, r.val() = 3 (same dimension) the stored value stays
5 instead of the 5 - 3 = 2 the claim requires. -/
theorem subAssign_noop_at_5_3 :
    (Quantity.subAssign (⟨5⟩ : Quantity lengthDims) ⟨3⟩).value = 5 ∧ (5 : ℝ) ≠ 5 - 3 :=
  ⟨rfl, by norm_num⟩

/-- Claim C3 is about a code bug: at v = (9, 0, 0), Vector3D::magnitude
evaluates to sqrt(sqrt 9 + sqrt 0 + sqrt 0) = sqrt 3, because units::square
computes std::sqrt of the value instead of its square; the Euclidean norm
sqrt(9^2 + 0^2 + 0^2) = 9 claimed by the spec is not produced. -/
theorem magnitude_square_bug_at_900 :
    (Vector3D.magnitude (⟨⟨9⟩, ⟨0⟩, ⟨0⟩⟩ : Vector3D lengthDims)).value = Real.sqrt 3 ∧
    Real.sqrt 3 ≠ Real.sqrt ((9 : ℝ) ^ 2 + 0 ^ 2 + 0 ^ 2) := by
  constructor
  · exact sqrt_sum_900
  · have h : Real.sqrt ((9 : ℝ) ^ 2 + 0 ^ 2 + 0 ^ 2) = 9 := by
      rw [show (9 : ℝ) ^ 2 + 0 ^ 2 + 0 ^ 2 = 9 ^ 2 by norm_num,
        Real.sqrt_sq (by norm_num : (0 : ℝ) ≤ 9)]
    rw [h]
    exact ne_of_lt sqrt_three_lt_nine

/-- Claim C4 is about a code bug: at v = (9, 0, 0) the buggy magnitude is
sqrt 3 < 9, so x / magnitude = 9 / sqrt 3 > 1 lies outside the domain of
acos (NaN in the C library; arccos's junk value 0 in the model), and
fromPolar(theta(v), magnitude(v)) rebuilds the x component as sqrt 3, not
9: the polar round trip does not reconstruct v. -/
theorem fromPolar_theta_roundtrip_bug_at_900 :
    (Vector3D.fromPolar
        (Vector3D.theta (⟨⟨9⟩, ⟨0⟩, ⟨0⟩⟩ : Vector3D lengthDims))
        (Vector3D.magnitude (⟨⟨9⟩, ⟨0⟩, ⟨0⟩⟩ : Vector3D lengthDims))).x.value = Real.sqrt 3 ∧
    Real.sqrt 3 ≠ 9 := by
  constructor
  · show |Real.sqrt (Real.sqrt 9 + Real.sqrt 0 + Real.sqrt 0)| *
        Real.cos (Real.arccos
          ((9 : ℝ) / Real.sqrt (Real.sqrt 9 + Real.sqrt 0 + Real.sqrt 0))) = Real.sqrt 3
    rw [sqrt_sum_900]
    have hpos : (0 : ℝ) < Real.sqrt 3 := Real.sqrt_pos.mpr (by norm_num)
    have h1 : (1 : ℝ) ≤ 9 / Real.sqrt 3 :=
      (one_le_div hpos).mpr (le_of_lt sqrt_three_lt_nine)
    rw [Real.arccos_eq_zero.mpr h1, Real.cos_zero, mul_one,
      abs_of_nonneg (Real.sqrt_nonneg 3)]
  · exact ne_of_lt sqrt_three_lt_nine

/-- Claim C5 as stated is false: at q.val() = -1 and N = 2, pow squares the
value to 1 and root takes its square root, so the round trip returns 1,
not -1. -/
theorem root_pow_fails_for_negative :
    (units.root 2 (units.pow 2 (⟨-1⟩ : Quantity lengthDims))).value = 1 ∧ (1 : ℝ) ≠ -1 := by
  constructor
  · show (((-1 : ℝ)) ^ (2 : ℤ)) ^ ((1 : ℝ) / ((2 : ℤ) : ℝ)) = 1
    rw [show ((-1 : ℝ)) ^ (2 : ℤ) = 1 by norm_num, Real.one_rpow]
  · norm_num

/-- Claim C5 amended: for an integer N ≥ 1 and a quantity whose value is
nonnegative, root N (pow N q) carries q's dimension vector (each exponent
multiplied by N then divided by N) and its value is exactly q's value in
the real model. -/
theorem root_pow_inverse {d : Dims} (q : Quantity d) (N : ℤ) (hN : 1 ≤ N)
    (hq : 0 ≤ q.value) :
    (units.root N (units.pow N q)).value = q.value ∧
    QRoot (QPower d (N : ℚ)) (N : ℚ) = d := by
  have hNz : (N : ℝ) ≠ 0 := by
    have : (0 : ℤ) < N := by omega
    exact_mod_cast ne_of_gt (by exact_mod_cast this : (0 : ℝ) < (N : ℝ))
  constructor
  · show (q.value ^ N) ^ ((1 : ℝ) / (N : ℝ)) = q.value
    rw [← Real.rpow_intCast q.value N, ← Real.rpow_mul hq, one_div,
      mul_inv_cancel₀ hNz, Real.rpow_one]
  · have hn : ((N : ℚ)) ≠ 0 := by
      exact_mod_cast (by omega : N ≠ 0)
    cases d
    simp [QPower, QRoot, mul_div_assoc, div_self hn]

/-- Witness for the amended C5 at q.val() = 2 (length dimension), N = 2. -/
theorem root_pow_inverse_witness :
    ((1 : ℤ) ≤ 2 ∧ (0 : ℝ) ≤ (⟨2⟩ : Quantity lengthDims).value) ∧
    (units.root 2 (units.pow 2 (⟨2⟩ : Quantity lengthDims))).value =
      (⟨2⟩ : Quantity lengthDims).value ∧
    QRoot (QPower lengthDims ((2 : ℤ) : ℚ)) ((2 : ℤ) : ℚ) = lengthDims := by
  have hq : (0 : ℝ) ≤ (⟨2⟩ : Quantity lengthDims).value := by
    show (0 : ℝ) ≤ 2
    norm_num
  exact ⟨⟨by norm_num, hq⟩, root_pow_inverse (⟨2⟩ : Quantity lengthDims) 2 (by norm_num) hq⟩

/-- Claim C6: direct assignment of a bare double is accepted exactly when
every one of the eight exponents of the dimension vector is zero, and any
accepted assignment stores exactly the assigned double. -/
theorem assignDouble_iff_dimensionless {d : Dims} (q : Quantity d) (r : ℝ) :
    ((q.assignDouble r).isSome ↔
      (d.mass = 0 ∧ d.length = 0 ∧ d.time = 0 ∧ d.current = 0 ∧ d.angle = 0 ∧
       d.temperature = 0 ∧ d.luminosity = 0 ∧ d.moles = 0)) ∧
    (∀ q2 : Quantity d, q.assignDouble r = some q2 → q2.value = r) := by
  constructor
  · rw [← dims_eq_number_iff]
    unfold Quantity.assignDouble
    by_cases h : d = dimsNumber <;> simp [h]
  · intro q2 hq2
    unfold Quantity.assignDouble at hq2
    by_cases h : d = dimsNumber
    · rw [if_pos h] at hq2
      cases hq2
      rfl
    · rw [if_neg h] at hq2
      cases hq2

/-- Witness for C6: assigning 7 into a Number (all-zero dimension vector)
quantity is accepted and stores 7. -/
theorem assignDouble_iff_dimensionless_witness :
    ((⟨5⟩ : Quantity dimsNumber).assignDouble 7).isSome ∧
    (∀ q2 : Quantity dimsNumber,
      (⟨5⟩ : Quantity dimsNumber).assignDouble 7 = some q2 → q2.value = 7) :=
  ⟨(assignDouble_iff_dimensionless (⟨5⟩ : Quantity dimsNumber) 7).1.mpr
      ⟨rfl, rfl, rfl, rfl, rfl, rfl, rfl, rfl⟩,
   (assignDouble_iff_dimensionless (⟨5⟩ : Quantity dimsNumber) 7).2⟩

/-- Claim C7: toLinear multiplies the angular value by diameter/2 and its
result dimension vector is the input's with the angle and length exponent
slots swapped; toAngular divides the linear value by diameter/2 and
performs the identical slot swap. -/
theorem toLinear_toAngular_spec {d : Dims} (angular lin : Quantity d)
    (diameter : Quantity lengthDims) :
    (toLinear angular diameter).value = angular.value * (diameter.value / 2) ∧
    (toAngular lin diameter).value = lin.value / (diameter.value / 2) ∧
    swapAngleLength d =
      ⟨d.mass, d.angle, d.time, d.current, d.length, d.temperature, d.luminosity,
       d.moles⟩ :=
  ⟨rfl, rfl, rfl⟩

/-- Claim C8 is about a code bug: at a = (0, 0, 0), b = (1, 2, 3) the
component arithmetic written in the body of Vector3D::vectorTo yields
(1 - 0, 2 - 0, 3 - 0) = b - a as claimed, but the source hands these three
components to the two-component Vector2D constructor instead of the
declared Vector3D return type. -/
theorem vectorTo_components_at_0_123 :
    Vector3D.vectorToComponents (⟨⟨0⟩, ⟨0⟩, ⟨0⟩⟩ : Vector3D lengthDims)
      (⟨⟨1⟩, ⟨2⟩, ⟨3⟩⟩ : Vector3D lengthDims) =
      ((⟨1 - 0⟩ : Quantity lengthDims), (⟨2 - 0⟩ : Quantity lengthDims),
       (⟨3 - 0⟩ : Quantity lengthDims)) :=
  rfl

/-- Claim C9: the unchecked unit_cast preserves the stored value exactly,
whatever the source and target dimension vectors are. -/
theorem unit_cast_preserves_value (d1 d2 : Dims) (q : Quantity d1) :
    (unit_cast d2 q).value = q.value :=
  rfl

/-- Claim C10: sgn returns -1 on a negative value and 1 on any other
value; in particular it returns 1, never 0, on a zero value. -/
theorem sgn_spec {d : Dims} (q : Quantity d) :
    (q.value < 0 → units.sgn q = -1) ∧ (0 ≤ q.value → units.sgn q = 1) ∧
    units.sgn (⟨0⟩ : Quantity d) = 1 := by
  refine ⟨fun h => ?_, fun h => ?_, ?_⟩
  · unfold units.sgn
    rw [if_pos h]
  · unfold units.sgn
    rw [if_neg (not_lt.mpr h)]
  · unfold units.sgn
    rw [if_neg (lt_irrefl (0 : ℝ))]

/-- Witness for C10 at the negative value -2 and at zero. -/
theorem sgn_spec_witness :
    ((⟨-2⟩ : Quantity lengthDims).value < 0 ∧ units.sgn (⟨-2⟩ : Quantity lengthDims) = -1) ∧
    units.sgn (⟨0⟩ : Quantity lengthDims) = 1 := by
  have hneg : ((⟨-2⟩ : Quantity lengthDims)).value < 0 := by
    show (-2 : ℝ) < 0
    norm_num
  exact ⟨⟨hneg, (sgn_spec (⟨-2⟩ : Quantity lengthDims)).1 hneg⟩,
    (sgn_spec (⟨-2⟩ : Quantity lengthDims)).2.2⟩
